import Mathlib

/-!
Shallow embedding of the `agent-framework-patterns` repository (Python,
pydantic-ai examples) and verification of the frozen claims about it.

Conventions of the embedding:
  * Python strings are Lean `String`s; most character-level reasoning is
    done on `String.data : List Char`.
  * Python `\d` in `re` patterns is modelled by `Char.isDigit` (the ASCII
    decimal digits; both the spec and the code speak of decimal digits).
  * Python's `re.match(r"^...$", v)` semantics: `$` matches at the end of
    the string or just before a single trailing newline; this is modelled
    by `pyFullMatchDollar`.
  * Python exceptions raised by a validator are modelled by `Except String`.
  * External effects (LLM calls, HTTP calls, console input) are modelled as
    oracle functions passed to the embedded control flow.
  * Python machine floats are modelled by `ℚ`, and `round(x, 1)` by exact
    round-half-to-even on the rational value (`pyRound`).
-/

namespace AgentPatterns

/-! ### Python string-primitive helpers -/

/-- Python's `s.lower()`: lower-case every character. -/
def pyLower (s : String) : String :=
  ⟨s.data.map Char.toLower⟩

/-- Python's substring test `needle in hay` on lists of characters. -/
def pyStrContains (needle hay : List Char) : Bool :=
  hay.tails.any (fun t => needle.isPrefixOf t)

/-- Python's `s.split(sep)` for a single-character separator `sep`:
`"".split(sep) == [""]`, and every occurrence of `sep` starts a new part. -/
def pySplitOn (sep : Char) : List Char → List (List Char)
  | [] => [[]]
  | c :: rest =>
    if c = sep then
      [] :: pySplitOn sep rest
    else
      match pySplitOn sep rest with
      | [] => [[c]]
      | p :: ps => (c :: p) :: ps

/-- Python's whitespace `s.split()`: split on runs of whitespace and drop
empty parts. -/
def pySplitWs : List Char → List (List Char)
  | [] => []
  | c :: rest =>
    if c.isWhitespace then pySplitWs rest
    else
      match rest, pySplitWs rest with
      | c2 :: _, p :: ps =>
        if c2.isWhitespace then [c] :: p :: ps else (c :: p) :: ps
      | _, r => [c] :: r

/-- Python's slice `l[:n]`, including the negative-index case
(`l[:n] == l[:max(0, len(l)+n)]` for `n < 0`). -/
def pySliceTo (n : ℤ) (l : List α) : List α :=
  if 0 ≤ n then l.take n.toNat else l.take ((l.length : ℤ) + n).toNat

/-- Python `re.match(r"^...$", v)` for a full pattern `p`: the anchor `$`
matches at the very end of the string or just before a single trailing
newline, so the regex also accepts `v' ++ "\n"` when it accepts `v'`. -/
def pyFullMatchDollar (p : List Char → Bool) (l : List Char) : Bool :=
  p l || (l.getLast? == some '\n' && p l.dropLast)

/-! ### `src/11_retry_validation.py` / `src/08_retry_validation.py`:
`ContactInfo` and its validators -/

/-- Body of the regex `\d{3}-\d{3}-\d{4}` matched against the whole string:
three decimal digits, a hyphen, three decimal digits, a hyphen, four
decimal digits. -/
def matches334 : List Char → Bool
  | [a, b, c, h1, d, e, f, h2, g, h, i, j] =>
    a.isDigit && b.isDigit && c.isDigit && h1 == '-' &&
    d.isDigit && e.isDigit && f.isDigit && h2 == '-' &&
    g.isDigit && h.isDigit && i.isDigit && j.isDigit
  | _ => false

/-- `ContactInfo.validate_phone`: `re.match(r"^\d{3}-\d{3}-\d{4}$", v)`,
raising `ValueError` when the regex does not match. -/
def validate_phone (v : String) : Except String String :=
  if pyFullMatchDollar matches334 v.data then .ok v
  else .error "Phone must be in format XXX-XXX-XXXX"

/-- `ContactInfo.validate_email`:
`if "@" not in v or "." not in v.split("@")[1]: raise ValueError(...)`. -/
def validate_email (v : String) : Except String String :=
  if !pyStrContains ['@'] v.data
      || !pyStrContains ['.'] ((pySplitOn '@' v.data).getD 1 []) then
    .error "Invalid email format"
  else .ok v

/-- The `ContactInfo` model of `src/11_retry_validation.py`. -/
structure ContactInfo where
  name : String
  email : String
  phone : String
  age : ℤ
  deriving Repr, DecidableEq

/-- Pydantic construction of a `ContactInfo`: the `age` field carries
`ge=0, le=120`, and the two field validators must accept. -/
def mkContactInfo (name email phone : String) (age : ℤ) :
    Except String ContactInfo :=
  match validate_email email with
  | .error e => .error e
  | .ok em =>
    match validate_phone phone with
    | .error e => .error e
    | .ok ph =>
      if 0 ≤ age ∧ age ≤ 120 then .ok ⟨name, em, ph, age⟩
      else .error "Input should be within the range 0..120"

/-- The spec's 3-3-4 phone pattern, stated from the spec's words: three
decimal digits, a hyphen, three decimal digits, a hyphen, four decimal
digits, and nothing else. -/
def SpecPhone (l : List Char) : Prop :=
  ∃ d1 d2 d3 : List Char,
    d1.length = 3 ∧ d2.length = 3 ∧ d3.length = 4 ∧
    (∀ c ∈ d1 ++ d2 ++ d3, c.isDigit) ∧
    l = d1 ++ '-' :: (d2 ++ '-' :: d3)

/-- The spec's description of `v.split("@")[1]`: the segment strictly
between the first `'@'` and the next `'@'` (or the end of the string). -/
def emailSeg (l : List Char) : List Char :=
  ((l.dropWhile (fun c => c != '@')).drop 1).takeWhile (fun c => c != '@')

/-! ### `src/15_reflection_self_correction.py`: `Critique` -/

/-- The `Critique` model: `score` carries `ge=1, le=10`. -/
structure Critique where
  score : ℤ
  strengths : List String
  weaknesses : List String
  suggestions : String
  deriving Repr, DecidableEq

/-- Pydantic construction of a `Critique`. -/
def mkCritique (score : ℤ) (strengths weaknesses : List String)
    (suggestions : String) : Except String Critique :=
  if 1 ≤ score ∧ score ≤ 10 then
    .ok ⟨score, strengths, weaknesses, suggestions⟩
  else
    .error "Input should be within the range 1..10"

/-! ### `src/16_llm_judge.py`: `Judgment` -/

/-- The `Judgment` model: `score` carries `ge=1, le=10`; `criteria_met`
is a string-keyed dict of booleans, modelled as an association list. -/
structure Judgment where
  approved : Bool
  score : ℤ
  criteria_met : List (String × Bool)
  rejection_reasons : List String
  suggestions : String
  deriving Repr, DecidableEq

/-- Pydantic construction of a `Judgment`. -/
def mkJudgment (approved : Bool) (score : ℤ) (criteria_met : List (String × Bool))
    (rejection_reasons : List String) (suggestions : String) :
    Except String Judgment :=
  if 1 ≤ score ∧ score ≤ 10 then
    .ok ⟨approved, score, criteria_met, rejection_reasons, suggestions⟩
  else
    .error "Input should be within the range 1..10"

/-! ### Python `round` on rationals -/

/-- Python's `round` to the nearest integer: round half to even, modelled
exactly on `ℚ`. -/
def pyRound (x : ℚ) : ℤ :=
  if Int.fract x < 1 / 2 then ⌊x⌋
  else if 1 / 2 < Int.fract x then ⌊x⌋ + 1
  else if Even ⌊x⌋ then ⌊x⌋ else ⌊x⌋ + 1

/-- Python's `round(x, 1)`: one decimal place. -/
def pyRoundTo1 (x : ℚ) : ℚ :=
  (pyRound (10 * x) : ℚ) / 10

/-! ### `src/04_multiple_tools.py`: `convert_temperature` -/

/-- `convert_temperature(temperature, from_unit, to_unit)`: lower-cases the
unit names, converts Fahrenheit to Celsius or Celsius to Fahrenheit with the
linear formulas rounded to one decimal place, and returns the input
unchanged for any other unit pair. -/
def convert_temperature (temperature : ℚ) (from_unit to_unit : String) : ℚ :=
  if pyLower from_unit = "fahrenheit" ∧ pyLower to_unit = "celsius" then
    pyRoundTo1 ((temperature - 32) * 5 / 9)
  else if pyLower from_unit = "celsius" ∧ pyLower to_unit = "fahrenheit" then
    pyRoundTo1 (temperature * 9 / 5 + 32)
  else
    temperature

/-- `convert_temperature(temp_f)` of `src/04_multiple_tool_calls.py`:
Fahrenheit to Celsius only, formatted as a string. -/
def convert_temperature_f (temp_f : ℚ) : String :=
  let temp_c := pyRoundTo1 ((temp_f - 32) * 5 / 9)
  s!"{temp_f}°F is {temp_c}°C"

/-! ### `src/14_rag_knowledge_base.py`: the toy keyword search -/

/-- One entry of the in-memory knowledge base. -/
structure Doc where
  id : ℕ
  category : String
  title : String
  content : String
  deriving Repr, DecidableEq

/-- The hard-coded `KNOWLEDGE_BASE` list. -/
def KNOWLEDGE_BASE : List Doc :=
  [⟨1, "getting-started", "Creating an Agent",
    "To create a PydanticAI agent, use the Agent class: `agent = Agent(\x27model-name\x27, system_prompt=\x27...\x27)`. The agent encapsulates model configuration and behavior instructions."⟩,
   ⟨2, "tools", "Function Tools",
    "Tools are registered using decorators: `@agent.tool_plain` for simple tools or `@agent.tool` for tools needing context. Tools let agents perform actions and retrieve information dynamically."⟩,
   ⟨3, "tools", "Tool Parameters",
    "Tool functions can accept typed parameters. PydanticAI automatically generates schemas from type hints. Tools can use Pydantic models for complex parameter validation."⟩,
   ⟨4, "dependencies", "Dependency Injection",
    "Pass runtime dependencies to agents using the deps_type parameter and RunContext. This enables type-safe configuration: `agent = Agent(model, deps_type=MyDeps)` then access via `ctx.deps` in tools and system prompts."⟩,
   ⟨5, "output", "Structured Output",
    "Define structured outputs using Pydantic models with output_type parameter: `agent = Agent(model, output_type=MyModel)`. The agent\x27s response will be validated and typed automatically."⟩,
   ⟨6, "output", "Streaming Responses",
    "Use `agent.run_stream()` to stream responses token-by-token. This is useful for long-form content where you want to show progressive output to users."⟩,
   ⟨7, "advanced", "Message History",
    "Maintain conversation context by passing message_history: `result2 = agent.run_sync(prompt, message_history=result1.new_messages())`. This enables multi-turn conversations."⟩,
   ⟨8, "advanced", "Result Validators",
    "Add validation to agent outputs using Pydantic validators. Validators can enforce quality constraints and trigger retries if validation fails."⟩,
   ⟨9, "observability", "Logfire Integration",
    "Instrument agents with Logfire for observability: `logfire.instrument_pydantic_ai()` and set `instrument=True` on agents. This provides detailed tracing of agent operations."⟩]

/-- The per-document relevance score of `search_knowledge_base`: for each
query term, +3 if the term occurs in the lowered title, +1 if it occurs in
the lowered content, +2 if it occurs in the lowered category. -/
def docScore (terms : List (List Char)) (doc : Doc) : ℕ :=
  terms.foldl (fun score term =>
    score + (if pyStrContains term (pyLower doc.title).data then 3 else 0)
          + (if pyStrContains term (pyLower doc.content).data then 1 else 0)
          + (if pyStrContains term (pyLower doc.category).data then 2 else 0)) 0

/-- `search_knowledge_base(query, max_results)`: score every document,
keep the strictly positive scores, sort by score descending (Python's
stable sort with `reverse=True`), and return the docs of the first
`max_results` scored pairs. -/
def search_knowledge_base (query : String) (max_results : ℤ) : List Doc :=
  let query_lower := pyLower query
  let terms := pySplitWs query_lower.data
  let results :=
    (KNOWLEDGE_BASE.map (fun doc => (docScore terms doc, doc))).filter
      (fun p => 0 < p.1)
  let sorted := results.mergeSort (fun a b => b.1 ≤ a.1)
  (pySliceTo max_results sorted).map (fun p => p.2)

/-- Python's `range(a, b)` as a list. -/
def pyRange (a b : ℕ) : List ℕ :=
  (List.range (b - a)).map (· + a)

/-! ### `src/15_reflection_self_correction.py`: the iterative improvement
loop. The two agents are external; they enter the embedding as oracle
functions from the prompt they receive to their structured reply. -/

/-- `max_iterations = 3`. -/
def maxIterationsReflection : ℕ := 3

/-- The critic's prompt for the current explanation. -/
def criticPrompt (topic expl : String) : String :=
  s!"Evaluate this explanation of {topic}:\n\n{expl}"

/-- The writer's improvement prompt, built from the current explanation and
the critique. -/
def improvementPrompt (topic expl : String) (critique : Critique) : String :=
  let strengths := String.intercalate ", " critique.strengths
  let weaknesses := String.intercalate ", " critique.weaknesses
  let suggestions := critique.suggestions
  s!"Improve this explanation of {topic} based on the following feedback:\n\nOriginal explanation:\n{expl}\n\nFeedback:\n- Strengths: {strengths}\n- Weaknesses: {weaknesses}\n- Suggestions: {suggestions}\n\nCreate an improved version that addresses the weaknesses while maintaining the strengths."

/-- The body of `for iteration in range(2, max_iterations + 1)`: critique
the current explanation, `break` if the score reaches 8, otherwise ask the
writer to improve and continue. Returns the final explanation, the number
of iterations executed, and whether the loop exited through the `break`. -/
def reflectionLoop (critic : String → Critique) (writer : String → String)
    (topic : String) : String → List ℕ → String × ℕ × Bool
  | expl, [] => (expl, 0, false)
  | expl, _iteration :: rest =>
    let critique := critic (criticPrompt topic expl)
    if 8 ≤ critique.score then (expl, 1, true)
    else
      let expl2 := writer (improvementPrompt topic expl critique)
      let r := reflectionLoop critic writer topic expl2 rest
      (r.1, r.2.1 + 1, r.2.2)

/-- The whole iterative improvement loop, started from the initial draft. -/
def reflectionRun (critic : String → Critique) (writer : String → String)
    (topic expl0 : String) : String × ℕ × Bool :=
  reflectionLoop critic writer topic expl0 (pyRange 2 (maxIterationsReflection + 1))

/-! ### `src/16_llm_judge.py`: `generate_with_validation` -/

/-- The judge's prompt for a piece of content. -/
def judgePromptOf (content : String) : String :=
  s!"Evaluate this product description:\n\n{content}"

/-- The `feedback_context` string built from a rejecting judgment. -/
def feedbackOf (j : Judgment) : String :=
  let reasons := String.intercalate ", " j.rejection_reasons
  let suggestions := j.suggestions
  s!"\nRejection reasons: {reasons}\nSuggestions: {suggestions}\n"

/-- The content agent's prompt: the base request, extended with the
previous judge feedback when `feedback_context` is non-empty (Python's
string truthiness). -/
def genPrompt (product feedback : String) : String :=
  s!"Create a compelling product description for: {product}"
    ++ (if feedback ≠ "" then
          s!"\n\nPrevious attempt was rejected. Improve based on this feedback:\n{feedback}"
        else "")

/-- The body of `for attempt in range(1, max_attempts + 1)`: generate
content (with feedback folded into the prompt after the first rejection),
judge it, and return as soon as the judge approves. -/
def genLoop (contentAgent : String → String) (judgeAgent : String → Judgment)
    (product : String) :
    Option String → String → List Judgment → List ℕ →
      Option String × List Judgment
  | cur, _feedback, judgments, [] => (cur, judgments)
  | _cur, feedback, judgments, _attempt :: rest =>
    let content := contentAgent (genPrompt product feedback)
    let judgment := judgeAgent (judgePromptOf content)
    let judgments2 := judgments ++ [judgment]
    if judgment.approved then (some content, judgments2)
    else genLoop contentAgent judgeAgent product (some content)
      (feedbackOf judgment) judgments2 rest

/-- `generate_with_validation(product, max_attempts)`: runs the capped
attempt loop starting with no content and empty feedback. -/
def generate_with_validation (contentAgent : String → String)
    (judgeAgent : String → Judgment) (product : String) (max_attempts : ℕ) :
    Option String × List Judgment :=
  genLoop contentAgent judgeAgent product none "" [] (pyRange 1 (max_attempts + 1))

/-! ### `src/18_human_in_loop.py`: the negotiation loop -/

/-- The `Offer` model. -/
structure Offer where
  price : ℤ
  quantity : ℤ
  terms : String
  reasoning : String
  deriving Repr, DecidableEq

/-- `max_rounds = 5`. -/
def maxRounds : ℕ := 5

/-- The `history` block describing the seller's last offer. -/
def sellerHistory (o : Offer) : String :=
  let price := o.price
  let quantity := o.quantity
  let total := o.price * o.quantity
  let terms := o.terms
  let reasoning := o.reasoning
  s!"\nSeller\x27s last offer:\n- {quantity} goats at ${price} each (${total} total)\n- Terms: {terms}\n- Their reasoning: {reasoning}\n"

/-- The negotiator agent's prompt. -/
def negotiatorPrompt (sellerOffer : Offer) : String :=
  let history := sellerHistory sellerOffer
  s!"The seller made this offer:\n{history}\n\nMake your counteroffer."

/-- The seller agent's prompt for our counteroffer. -/
def sellerPromptOf (o : Offer) : String :=
  let price := o.price
  let quantity := o.quantity
  let terms := o.terms
  let reasoning := o.reasoning
  s!"Buyer countered with: {quantity} goats at ${price} each. Terms: {terms}. Their reasoning: {reasoning}. Make your counteroffer."

/-- The body of `for round_num in range(2, max_rounds + 1)`: the negotiator
suggests a counteroffer, the human approves or rewrites it (modelled by the
`human` oracle), the deal check may `break`, otherwise the seller counters.
Returns the number of iterations executed and whether the loop exited
through the deal-reached `break`. -/
def negotiationLoop (negotiator : String → Offer) (human : Offer → Offer)
    (seller : String → Offer) : Offer → List ℕ → ℕ × Bool
  | _sellerOffer, [] => (0, false)
  | sellerOffer, _round :: rest =>
    let suggested := negotiator (negotiatorPrompt sellerOffer)
    let ourOffer := human suggested
    let total_cost := ourOffer.price * ourOffer.quantity
    let seller_total := sellerOffer.price * sellerOffer.quantity
    if |total_cost - seller_total| < 500 ∧
        |ourOffer.quantity - sellerOffer.quantity| ≤ 5 then
      (1, true)
    else
      let sellerOffer2 := seller (sellerPromptOf ourOffer)
      let r := negotiationLoop negotiator human seller sellerOffer2 rest
      (r.1 + 1, r.2)

/-- The whole negotiation loop, started from the seller's opening offer. -/
def negotiationRun (negotiator : String → Offer) (human : Offer → Offer)
    (seller : String → Offer) (openingOffer : Offer) : ℕ × Bool :=
  negotiationLoop negotiator human seller openingOffer (pyRange 2 (maxRounds + 1))

/-! ### `src/07_conversation_history.py`: the interactive conversation
loop. `while True:` reads a user input (the `inputs` list is the stream of
values the user types), breaks when the lowered input is one of
`exit`/`quit`/`done`, and otherwise calls the agent once and carries the
updated message history. The surrounding `except KeyboardInterrupt` is an
external interrupt and is outside the embedding. -/

/-- `user_input.lower() in ["exit", "quit", "done"]`. -/
def isQuitCmd (u : String) : Bool :=
  (["exit", "quit", "done"] : List String).contains (pyLower u)

/-- The `while True` conversation loop, run against a finite prefix of the
user's input stream: returns the number of agent invocations and whether
the loop has terminated (via the quit `break`) within those inputs; `false`
means the loop is still awaiting further input. The `agent` oracle maps a
user input and the current message history to the new message history. -/
def conversationLoop (agent : String → List String → List String) :
    List String → List String → ℕ × Bool
  | _history, [] => (0, false)
  | history, u :: us =>
    if isQuitCmd u then (0, true)
    else
      let h2 := agent u history
      let r := conversationLoop agent h2 us
      (r.1 + 1, r.2)

/-! ### `src/14_rag_knowledge_base.py`, demo part: the question loop -/

/-- The hard-coded `questions` list. -/
def ragDemoQuestions : List String :=
  ["How do I create an agent in PydanticAI?",
   "What are tools and how do I use them?",
   "Can I maintain conversation history across multiple turns?",
   "How do I integrate Logfire for monitoring?"]

/-- `for i, question in enumerate(questions, 1): agent.run_sync(question)`:
one agent call per question, no early exit. -/
def ragDemoRun (agent : String → String) : List String :=
  ragDemoQuestions.map agent

/-! ### `src/16_llm_judge.py`, demo part: the products loop -/

/-- The hard-coded `products` list. -/
def judgeDemoProducts : List String :=
  ["Wireless Bluetooth Headphones with noise cancellation",
   "Organic Green Tea Blend with Jasmine"]

/-- `for product in products: generate_with_validation(product,
max_attempts=3)`: one validated generation per product, no early exit. -/
def judgeDemoRun (contentAgent : String → String)
    (judgeAgent : String → Judgment) : List (Option String × List Judgment) :=
  judgeDemoProducts.map
    (fun product => generate_with_validation contentAgent judgeAgent product 3)

/-! ### `src/17_multi_agent_debate.py`: the debate rounds loop. Each agent
oracle maps its prompt and current message history to its view and its new
messages (`result.output`, `result.new_messages()`); an empty history is
what the source passes as `None`. -/

/-- The per-agent histories and last views carried across debate rounds
(the views are unassigned before round 1; the loop runs `rounds ≥ 1` times
at the call site). -/
structure DebateState where
  optimist_history : List String
  pessimist_history : List String
  pragmatist_history : List String
  optimist_view : String
  pessimist_view : String
  pragmatist_view : String
  deriving Repr, DecidableEq

/-- One round of `for round_num in range(1, rounds + 1)`: optimist, then
pessimist (seeing the optimist's view), then pragmatist (seeing both),
each with its history-dependent prompt suffix, extending its history. -/
def debateRound (optimist pessimist pragmatist : String → List String → String × List String)
    (topic : String) (st : DebateState) : DebateState :=
  let optimist_prompt := s!"Argue in favor of: {topic}"
    ++ (if st.optimist_history ≠ [] then
          "\n\nRespond to previous points raised by others." else "")
  let ores := optimist optimist_prompt st.optimist_history
  let optimist_view := ores.1
  let pessimist_prompt :=
    s!"Identify risks and challenges with: {topic}\n\nConsider this optimistic view:\n{optimist_view}"
    ++ (if st.pessimist_history ≠ [] then
          "\n\nBuild on your previous arguments." else "")
  let pres := pessimist pessimist_prompt st.pessimist_history
  let pessimist_view := pres.1
  let pragmatist_prompt :=
    s!"Provide a practical analysis of: {topic}\n\nOptimistic perspective: {optimist_view}\n\nRisk perspective: {pessimist_view}"
    ++ (if st.pragmatist_history ≠ [] then
          "\n\nRefine your practical assessment." else "")
  let gres := pragmatist pragmatist_prompt st.pragmatist_history
  ⟨st.optimist_history ++ ores.2, st.pessimist_history ++ pres.2,
    st.pragmatist_history ++ gres.2, optimist_view, pessimist_view, gres.1⟩

/-- The debate rounds loop: no `break`, one round per index; returns the
final state and the number of rounds executed. -/
def debateLoop (optimist pessimist pragmatist : String → List String → String × List String)
    (topic : String) : DebateState → List ℕ → DebateState × ℕ
  | st, [] => (st, 0)
  | st, _round :: rest =>
    let st2 := debateRound optimist pessimist pragmatist topic st
    let r := debateLoop optimist pessimist pragmatist topic st2 rest
    (r.1, r.2 + 1)

/-- The loop of `run_debate(topic, rounds)` (called with `rounds=2`),
started from empty histories. -/
def run_debate_rounds (optimist pessimist pragmatist : String → List String → String × List String)
    (topic : String) (rounds : ℕ) : DebateState × ℕ :=
  debateLoop optimist pessimist pragmatist topic ⟨[], [], [], "", "", ""⟩
    (pyRange 1 (rounds + 1))

/-! ### `src/04_multiple_tool_calls.py` and `src/05_structured_outputs.py`:
`get_weather` with a catch-all fallback. The HTTP fetch plus JSON parsing
inside the `try` block is modelled as an oracle returning either the parsed
current conditions or the raised exception's message. -/

/-- The fields of `data["current_condition"][0]` used by
`src/04_multiple_tool_calls.py` (wttr.in returns them as strings). -/
structure CurrentCondition where
  temp_F : String
  weatherDesc : String
  humidity : String
  windspeedMiles : String
  deriving Repr, DecidableEq

/-- `get_weather(city)` of `src/04_multiple_tool_calls.py`: on success the
formatted weather line, on any exception the fallback string. -/
def get_weather (fetch : Except String CurrentCondition) (city : String) :
    String :=
  match fetch with
  | .ok current =>
    let temp_f := current.temp_F
    let condition := current.weatherDesc
    let humidity := current.humidity
    let wind := current.windspeedMiles
    s!"{city}: {temp_f}°F, {condition}, {humidity}% humidity, {wind} mph wind"
  | .error _e => s!"Unable to fetch weather for {city}"

/-- The parsed fields of `data["current_condition"][0]` used by
`src/05_structured_outputs.py` (after the `int(...)` conversions). -/
structure CurrentConditionFull where
  temp_F : ℤ
  temp_C : ℤ
  FeelsLikeF : ℤ
  weatherDesc : String
  humidity : ℤ
  windspeedMiles : ℤ
  winddir16Point : String
  deriving Repr, DecidableEq

/-- The dict returned by `get_weather` of `src/05_structured_outputs.py`. -/
structure WeatherData where
  city : String
  temp_f : ℤ
  temp_c : ℤ
  feels_like_f : ℤ
  condition : String
  humidity : ℤ
  wind_speed_mph : ℤ
  wind_dir : String
  deriving Repr, DecidableEq

/-- `get_weather(city)` of `src/05_structured_outputs.py`: on success the
parsed weather dict, on any exception the zeroed fallback dict. -/
def get_weather_structured (fetch : Except String CurrentConditionFull)
    (city : String) : WeatherData :=
  match fetch with
  | .ok c =>
    ⟨city, c.temp_F, c.temp_C, c.FeelsLikeF, c.weatherDesc, c.humidity,
      c.windspeedMiles, c.winddir16Point⟩
  | .error _e => ⟨city, 0, 0, 0, "Unable to fetch", 0, 0, "N/A"⟩

/-! ### `src/13_parallel_tool_calls.py`: `get_popular_attractions` -/

/-- The hard-coded `attractions_db` dict. -/
def attractions_db : List (String × List String) :=
  [("Tokyo", ["Tokyo Tower", "Senso-ji Temple", "Shibuya Crossing", "Meiji Shrine"]),
   ("Paris", ["Eiffel Tower", "Louvre Museum", "Notre-Dame", "Arc de Triomphe"]),
   ("New York", ["Statue of Liberty", "Central Park", "Times Square", "Empire State Building"]),
   ("London", ["Big Ben", "Tower Bridge", "British Museum", "Buckingham Palace"])]

/-- `get_popular_attractions(city)`:
`attractions_db.get(city, ["Historic District", "City Center", "Local Museum"])[:3]`. -/
def get_popular_attractions (city : String) : List String :=
  pySliceTo 3
    ((attractions_db.lookup city).getD
      ["Historic District", "City Center", "Local Museum"])

/-! ### `src/12_dynamic_system_prompts.py`: dynamic system prompts -/

/-- The dependency dataclass `UserContext`. -/
structure UserContext where
  name : String
  expertise_level : String
  preferred_language : String
  time_of_day : String
  deriving Repr, DecidableEq

/-- The `beginner` entry of `level_prompts`. -/
def beginnerPrompt : String :=
  "Explain concepts simply, avoid jargon, and use analogies."

/-- The `intermediate` entry of `level_prompts`. -/
def intermediatePrompt : String :=
  "Provide detailed explanations with some technical terms."

/-- The `expert` entry of `level_prompts`. -/
def expertPrompt : String :=
  "Use precise technical language and focus on advanced details."

/-- `expertise_prompt(ctx)`:
`level_prompts.get(ctx.deps.expertise_level, level_prompts["intermediate"])`. -/
def expertise_prompt (ctx : UserContext) : String :=
  (([("beginner", beginnerPrompt), ("intermediate", intermediatePrompt),
     ("expert", expertPrompt)].lookup ctx.expertise_level)).getD
    intermediatePrompt

/-- The `casual` entry of `style_prompts` (it interpolates the user's name). -/
def casualPrompt (name : String) : String :=
  s!"Be friendly and conversational. Call the user {name}."

/-- The `professional` entry of `style_prompts`. -/
def professionalPrompt : String :=
  "Be polite and formal in your responses."

/-- The `technical` entry of `style_prompts`. -/
def technicalPrompt : String :=
  "Be precise and concise, focusing on technical accuracy."

/-- `style_prompt(ctx)`:
`style_prompts.get(ctx.deps.preferred_language, style_prompts["professional"])`. -/
def style_prompt (ctx : UserContext) : String :=
  (([("casual", casualPrompt ctx.name), ("professional", professionalPrompt),
     ("technical", technicalPrompt)].lookup ctx.preferred_language)).getD
    professionalPrompt

/-- The `morning` entry of `time_greetings`. -/
def morningPrompt : String :=
  "Start with an energizing morning tone."

/-- The `afternoon` entry of `time_greetings`. -/
def afternoonPrompt : String :=
  "Keep the tone steady and focused."

/-- The `evening` entry of `time_greetings`. -/
def eveningPrompt : String :=
  "Be slightly more relaxed and concise."

/-- `time_prompt(ctx)`:
`time_greetings.get(ctx.deps.time_of_day, time_greetings["afternoon"])`. -/
def time_prompt (ctx : UserContext) : String :=
  (([("morning", morningPrompt), ("afternoon", afternoonPrompt),
     ("evening", eveningPrompt)].lookup ctx.time_of_day)).getD
    afternoonPrompt

/-! ## Theorems -/

/-- `attractions_db.get` falls through to the default list for unknown
cities. -/
lemma get_popular_attractions_default (city : String)
    (h : city ∉ (["Tokyo", "Paris", "New York", "London"] : List String)) :
    get_popular_attractions city =
      ["Historic District", "City Center", "Local Museum"] := by
  simp only [List.mem_cons, List.not_mem_nil, or_false, not_or] at h
  obtain ⟨h1, h2, h3, h4⟩ := h
  simp [get_popular_attractions, attractions_db, List.lookup,
    beq_eq_false_iff_ne.mpr h1, beq_eq_false_iff_ne.mpr h2,
    beq_eq_false_iff_ne.mpr h3, beq_eq_false_iff_ne.mpr h4, pySliceTo]

/-- C8: for every city, `get_popular_attractions` returns exactly 3
attraction names: the first 3 entries of the hard-coded list for Tokyo,
Paris, New York and London, and the fixed default list
`["Historic District", "City Center", "Local Museum"]` for every other
city. -/
theorem get_popular_attractions_spec :
    ∀ city : String,
      (get_popular_attractions city).length = 3 ∧
      (city ∉ (["Tokyo", "Paris", "New York", "London"] : List String) →
        get_popular_attractions city =
          ["Historic District", "City Center", "Local Museum"]) ∧
      get_popular_attractions "Tokyo" =
        ["Tokyo Tower", "Senso-ji Temple", "Shibuya Crossing"] ∧
      get_popular_attractions "Paris" =
        ["Eiffel Tower", "Louvre Museum", "Notre-Dame"] ∧
      get_popular_attractions "New York" =
        ["Statue of Liberty", "Central Park", "Times Square"] ∧
      get_popular_attractions "London" =
        ["Big Ben", "Tower Bridge", "British Museum"] := by
  intro city
  refine ⟨?_, get_popular_attractions_default city, by decide, by decide,
    by decide, by decide⟩
  by_cases h1 : city = "Tokyo"
  · subst h1; decide
  by_cases h2 : city = "Paris"
  · subst h2; decide
  by_cases h3 : city = "New York"
  · subst h3; decide
  by_cases h4 : city = "London"
  · subst h4; decide
  rw [get_popular_attractions_default city (by simp [h1, h2, h3, h4])]
  decide

/-- C8 witness: a city outside the hard-coded table gets the default
list, and the result has exactly 3 entries. -/
theorem get_popular_attractions_spec_witness :
    (get_popular_attractions "Berlin").length = 3 ∧
    get_popular_attractions "Berlin" =
      ["Historic District", "City Center", "Local Museum"] :=
  ⟨(get_popular_attractions_spec "Berlin").1,
   (get_popular_attractions_spec "Berlin").2.1 (by decide)⟩

/-- C5: `get_weather` never lets an exception escape: on any exception
from the wrapped HTTP fetch (modelled by the `.error` case of the oracle)
it returns the fallback value — the string
`"Unable to fetch weather for {city}"` in `src/04_multiple_tool_calls.py`,
the zeroed dict with condition `"Unable to fetch"` in
`src/05_structured_outputs.py` — and on success it returns the parsed
weather data. Both embedded tools are total functions. -/
theorem get_weather_fallback :
    ∀ (city : String) (fetch : Except String CurrentCondition)
      (fetchS : Except String CurrentConditionFull),
      (∀ e, fetch = .error e →
        get_weather fetch city = s!"Unable to fetch weather for {city}") ∧
      (∀ c, fetch = .ok c →
        get_weather fetch city =
          s!"{city}: {c.temp_F}°F, {c.weatherDesc}, {c.humidity}% humidity, {c.windspeedMiles} mph wind") ∧
      (∀ e, fetchS = .error e →
        get_weather_structured fetchS city =
          ⟨city, 0, 0, 0, "Unable to fetch", 0, 0, "N/A"⟩) ∧
      (∀ c, fetchS = .ok c →
        get_weather_structured fetchS city =
          ⟨city, c.temp_F, c.temp_C, c.FeelsLikeF, c.weatherDesc, c.humidity,
            c.windspeedMiles, c.winddir16Point⟩) := by
  intro city fetch fetchS
  refine ⟨?_, ?_, ?_, ?_⟩ <;> rintro x rfl <;> rfl

/-- C5 witness: a failing fetch for London yields the two fallback
values. -/
theorem get_weather_fallback_witness :
    get_weather (.error "connection timed out") "London" =
      "Unable to fetch weather for London" ∧
    get_weather_structured (.error "connection timed out") "London" =
      ⟨"London", 0, 0, 0, "Unable to fetch", 0, 0, "N/A"⟩ :=
  ⟨(get_weather_fallback "London" (.error "connection timed out")
      (.error "connection timed out")).1 "connection timed out" rfl,
   (get_weather_fallback "London" (.error "connection timed out")
      (.error "connection timed out")).2.2.1 "connection timed out" rfl⟩

/-- C7: `convert_temperature` is deterministic — it is a pure function of
its arguments (the embedding consults no random source or external state),
so equal argument triples give equal results; likewise for the
one-argument variant of `src/04_multiple_tool_calls.py`. -/
theorem convert_temperature_deterministic :
    (∀ (t₁ t₂ : ℚ) (fu₁ fu₂ tu₁ tu₂ : String),
      t₁ = t₂ → fu₁ = fu₂ → tu₁ = tu₂ →
      convert_temperature t₁ fu₁ tu₁ = convert_temperature t₂ fu₂ tu₂) ∧
    (∀ t₁ t₂ : ℚ, t₁ = t₂ →
      convert_temperature_f t₁ = convert_temperature_f t₂) := by
  constructor
  · intro t₁ t₂ fu₁ fu₂ tu₁ tu₂ ht hf hu
    rw [ht, hf, hu]
  · intro t₁ t₂ ht
    rw [ht]

/-- C7 witness: two calls with the same arguments agree. -/
theorem convert_temperature_deterministic_witness :
    convert_temperature 72 "fahrenheit" "celsius" =
      convert_temperature 72 "fahrenheit" "celsius" ∧
    convert_temperature_f 72 = convert_temperature_f 72 :=
  ⟨convert_temperature_deterministic.1 72 72 "fahrenheit" "fahrenheit"
      "celsius" "celsius" rfl rfl rfl,
   convert_temperature_deterministic.2 72 72 rfl⟩

/-- C10: each dynamic system-prompt function is total, returns a member of
its three-entry table, and falls back to the `intermediate` /
`professional` / `afternoon` entry whenever the controlling field is
outside its three recognised values. -/
theorem dynamic_prompts_spec :
    ∀ ctx : UserContext,
      (expertise_prompt ctx = beginnerPrompt ∨
        expertise_prompt ctx = intermediatePrompt ∨
        expertise_prompt ctx = expertPrompt) ∧
      (ctx.expertise_level ∉ (["beginner", "intermediate", "expert"] : List String) →
        expertise_prompt ctx = intermediatePrompt) ∧
      (style_prompt ctx = casualPrompt ctx.name ∨
        style_prompt ctx = professionalPrompt ∨
        style_prompt ctx = technicalPrompt) ∧
      (ctx.preferred_language ∉ (["casual", "professional", "technical"] : List String) →
        style_prompt ctx = professionalPrompt) ∧
      (time_prompt ctx = morningPrompt ∨
        time_prompt ctx = afternoonPrompt ∨
        time_prompt ctx = eveningPrompt) ∧
      (ctx.time_of_day ∉ (["morning", "afternoon", "evening"] : List String) →
        time_prompt ctx = afternoonPrompt) := by
  intro ctx
  have he : ∀ s : String, s ∉ (["beginner", "intermediate", "expert"] : List String) →
      ([("beginner", beginnerPrompt), ("intermediate", intermediatePrompt),
        ("expert", expertPrompt)].lookup s) = none := by
    intro s hs
    simp only [List.mem_cons, List.not_mem_nil, or_false, not_or] at hs
    simp [List.lookup, beq_eq_false_iff_ne.mpr hs.1,
      beq_eq_false_iff_ne.mpr hs.2.1, beq_eq_false_iff_ne.mpr hs.2.2]
  have hs : ∀ s : String, s ∉ (["casual", "professional", "technical"] : List String) →
      ([("casual", casualPrompt ctx.name), ("professional", professionalPrompt),
        ("technical", technicalPrompt)].lookup s) = none := by
    intro s hs
    simp only [List.mem_cons, List.not_mem_nil, or_false, not_or] at hs
    simp [List.lookup, beq_eq_false_iff_ne.mpr hs.1,
      beq_eq_false_iff_ne.mpr hs.2.1, beq_eq_false_iff_ne.mpr hs.2.2]
  have ht : ∀ s : String, s ∉ (["morning", "afternoon", "evening"] : List String) →
      ([("morning", morningPrompt), ("afternoon", afternoonPrompt),
        ("evening", eveningPrompt)].lookup s) = none := by
    intro s hs
    simp only [List.mem_cons, List.not_mem_nil, or_false, not_or] at hs
    simp [List.lookup, beq_eq_false_iff_ne.mpr hs.1,
      beq_eq_false_iff_ne.mpr hs.2.1, beq_eq_false_iff_ne.mpr hs.2.2]
  refine ⟨?_, ?_, ?_, ?_, ?_, ?_⟩
  · by_cases h1 : ctx.expertise_level = "beginner"
    · left; simp [expertise_prompt, List.lookup, h1]
    by_cases h2 : ctx.expertise_level = "intermediate"
    · right; left; simp [expertise_prompt, List.lookup, h2,
        beq_eq_false_iff_ne.mpr h1]
    by_cases h3 : ctx.expertise_level = "expert"
    · right; right; simp [expertise_prompt, List.lookup, h3,
        beq_eq_false_iff_ne.mpr h1, beq_eq_false_iff_ne.mpr h2]
    · right; left
      simp [expertise_prompt, he ctx.expertise_level (by simp [h1, h2, h3])]
  · intro h
    simp [expertise_prompt, he ctx.expertise_level h]
  · by_cases h1 : ctx.preferred_language = "casual"
    · left; simp [style_prompt, List.lookup, h1]
    by_cases h2 : ctx.preferred_language = "professional"
    · right; left; simp [style_prompt, List.lookup, h2,
        beq_eq_false_iff_ne.mpr h1]
    by_cases h3 : ctx.preferred_language = "technical"
    · right; right; simp [style_prompt, List.lookup, h3,
        beq_eq_false_iff_ne.mpr h1, beq_eq_false_iff_ne.mpr h2]
    · right; left
      simp [style_prompt, hs ctx.preferred_language (by simp [h1, h2, h3])]
  · intro h
    simp [style_prompt, hs ctx.preferred_language h]
  · by_cases h1 : ctx.time_of_day = "morning"
    · left; simp [time_prompt, List.lookup, h1]
    by_cases h2 : ctx.time_of_day = "afternoon"
    · right; left; simp [time_prompt, List.lookup, h2,
        beq_eq_false_iff_ne.mpr h1]
    by_cases h3 : ctx.time_of_day = "evening"
    · right; right; simp [time_prompt, List.lookup, h3,
        beq_eq_false_iff_ne.mpr h1, beq_eq_false_iff_ne.mpr h2]
    · right; left
      simp [time_prompt, ht ctx.time_of_day (by simp [h1, h2, h3])]
  · intro h
    simp [time_prompt, ht ctx.time_of_day h]

/-- C10 witness: a context with all three fields outside the recognised
values gets all three fallback prompts. -/
theorem dynamic_prompts_spec_witness :
    expertise_prompt ⟨"Ana", "novice", "klingon", "midnight"⟩ = intermediatePrompt ∧
    style_prompt ⟨"Ana", "novice", "klingon", "midnight"⟩ = professionalPrompt ∧
    time_prompt ⟨"Ana", "novice", "klingon", "midnight"⟩ = afternoonPrompt :=
  ⟨(dynamic_prompts_spec ⟨"Ana", "novice", "klingon", "midnight"⟩).2.1 (by decide),
   (dynamic_prompts_spec ⟨"Ana", "novice", "klingon", "midnight"⟩).2.2.2.1 (by decide),
   (dynamic_prompts_spec ⟨"Ana", "novice", "klingon", "midnight"⟩).2.2.2.2.2 (by decide)⟩

/-- Round-half-to-even is within 1/2 of its argument. -/
lemma pyRound_close (x : ℚ) : |(pyRound x : ℚ) - x| ≤ 1 / 2 := by
  have h0 : (0 : ℚ) ≤ Int.fract x := Int.fract_nonneg x
  have h1 : Int.fract x < 1 := Int.fract_lt_one x
  have hf : Int.fract x = x - ⌊x⌋ := rfl
  unfold pyRound
  split_ifs <;> rw [abs_le] <;> constructor <;> push_cast <;> linarith

/-- Rounding to one decimal place is within 1/20 of the argument. -/
lemma pyRoundTo1_close (x : ℚ) : |pyRoundTo1 x - x| ≤ 1 / 20 := by
  have h := pyRound_close (10 * x)
  unfold pyRoundTo1
  rw [abs_le] at h ⊢
  constructor <;> [skip; skip] <;> obtain ⟨ha, hb⟩ := h <;> linarith

/-- C2: in the Fahrenheit-to-Celsius direction `convert_temperature`
computes exactly `round((t - 32) * 5 / 9, 1)`, and the Fahrenheit → Celsius
→ Fahrenheit round trip differs from the input by at most `7/50`, the
tolerance of rounding each step to one decimal place (a `1/20` error on the
Celsius value is scaled by `9/5` and another `1/20` is added by the second
rounding). -/
theorem convert_temperature_spec :
    ∀ (t : ℚ) (from_unit to_unit : String),
      (pyLower from_unit = "fahrenheit" → pyLower to_unit = "celsius" →
        convert_temperature t from_unit to_unit =
          pyRoundTo1 ((t - 32) * 5 / 9)) ∧
      |convert_temperature
          (convert_temperature t "fahrenheit" "celsius")
          "celsius" "fahrenheit" - t| ≤ 7 / 50 := by
  intro t from_unit to_unit
  constructor
  · intro h1 h2
    unfold convert_temperature
    rw [if_pos ⟨h1, h2⟩]
  · have e1 : convert_temperature t "fahrenheit" "celsius" =
        pyRoundTo1 ((t - 32) * 5 / 9) := rfl
    have e2 : convert_temperature (pyRoundTo1 ((t - 32) * 5 / 9))
        "celsius" "fahrenheit" =
        pyRoundTo1 (pyRoundTo1 ((t - 32) * 5 / 9) * 9 / 5 + 32) := rfl
    rw [e1, e2]
    have hc := pyRoundTo1_close ((t - 32) * 5 / 9)
    have hf := pyRoundTo1_close (pyRoundTo1 ((t - 32) * 5 / 9) * 9 / 5 + 32)
    have ht : (t - 32) * 5 / 9 * 9 / 5 + 32 = t := by ring
    rw [abs_le] at hc hf ⊢
    obtain ⟨hc1, hc2⟩ := hc
    obtain ⟨hf1, hf2⟩ := hf
    constructor <;> linarith

/-- C2 witness: at 212 °F the conversion is the rounded linear formula
(100 °C) and the round trip stays within 7/50 of 212. -/
theorem convert_temperature_spec_witness :
    convert_temperature 212 "Fahrenheit" "Celsius" =
      pyRoundTo1 ((212 - 32) * 5 / 9) ∧
    |convert_temperature (convert_temperature 212 "fahrenheit" "celsius")
        "celsius" "fahrenheit" - 212| ≤ 7 / 50 :=
  ⟨(convert_temperature_spec 212 "Fahrenheit" "Celsius").1 (by decide) (by decide),
   (convert_temperature_spec 212 "Fahrenheit" "Celsius").2⟩

/-- `range(a, b)` has `b - a` elements. -/
lemma pyRange_length (a b : ℕ) : (pyRange a b).length = b - a := by
  simp [pyRange]

/-- The reflection loop executes at most one iteration per index, and all
of them when the score threshold is never reached. -/
lemma reflectionLoop_bound (critic : String → Critique)
    (writer : String → String) (topic : String) :
    ∀ (idxs : List ℕ) (expl : String),
      (reflectionLoop critic writer topic expl idxs).2.1 ≤ idxs.length ∧
      ((reflectionLoop critic writer topic expl idxs).2.2 = false →
        (reflectionLoop critic writer topic expl idxs).2.1 = idxs.length) := by
  intro idxs
  induction idxs with
  | nil =>
    intro expl
    simp [reflectionLoop]
  | cons i rest ih =>
    intro expl
    simp only [reflectionLoop]
    split
    · simp [Nat.le_add_left]
    · obtain ⟨h1, h2⟩ :=
        ih (writer (improvementPrompt topic expl (critic (criticPrompt topic expl))))
      exact ⟨Nat.succ_le_succ h1, fun hf => congrArg (· + 1) (h2 hf)⟩

/-- The judged-generation loop appends exactly one judgment per executed
attempt: the judgment list grows, never beyond the index list, and reaches
the full length when no judgment is approved. -/
lemma genLoop_bound (contentAgent : String → String)
    (judgeAgent : String → Judgment) (product : String) :
    ∀ (idxs : List ℕ) (cur : Option String) (fb : String)
      (js : List Judgment),
      (genLoop contentAgent judgeAgent product cur fb js idxs).2.length ≤
        js.length + idxs.length ∧
      ((∀ j ∈ (genLoop contentAgent judgeAgent product cur fb js idxs).2,
          j.approved = false) →
        (genLoop contentAgent judgeAgent product cur fb js idxs).2.length =
          js.length + idxs.length) := by
  intro idxs
  induction idxs with
  | nil =>
    intro cur fb js
    simp [genLoop]
  | cons i rest ih =>
    intro cur fb js
    simp only [genLoop]
    split
    · rename_i happ
      refine ⟨?_, fun h => ?_⟩
      · simp only [List.length_append, List.length_cons, List.length_nil]
        omega
      · exact absurd
          (h (judgeAgent (judgePromptOf (contentAgent (genPrompt product fb))))
            (by simp))
          (by simp [happ])
    · obtain ⟨h1, h2⟩ := ih
        (some (contentAgent (genPrompt product fb)))
        (feedbackOf (judgeAgent (judgePromptOf (contentAgent (genPrompt product fb)))))
        (js ++ [judgeAgent (judgePromptOf (contentAgent (genPrompt product fb)))])
      refine ⟨?_, fun h => ?_⟩
      · refine le_trans h1 ?_
        simp only [List.length_append, List.length_cons, List.length_nil]
        omega
      · rw [h2 h]
        simp only [List.length_append, List.length_cons, List.length_nil]
        omega

/-- The negotiation loop executes at most one iteration per round index,
and all of them when the deal condition never fires. -/
lemma negotiationLoop_bound (negotiator : String → Offer)
    (human : Offer → Offer) (seller : String → Offer) :
    ∀ (idxs : List ℕ) (sellerOffer : Offer),
      (negotiationLoop negotiator human seller sellerOffer idxs).1 ≤ idxs.length ∧
      ((negotiationLoop negotiator human seller sellerOffer idxs).2 = false →
        (negotiationLoop negotiator human seller sellerOffer idxs).1 = idxs.length) := by
  intro idxs
  induction idxs with
  | nil =>
    intro sellerOffer
    simp [negotiationLoop]
  | cons i rest ih =>
    intro sellerOffer
    simp only [negotiationLoop]
    split
    · simp [Nat.le_add_left]
    · obtain ⟨h1, h2⟩ := ih
        (seller (sellerPromptOf (human (negotiator (negotiatorPrompt sellerOffer)))))
      exact ⟨Nat.succ_le_succ h1, fun hf => congrArg (· + 1) (h2 hf)⟩

/-- The conversation loop terminates (within the supplied inputs) exactly
when one of them is a quit command. -/
lemma conversationLoop_quit_iff (agent : String → List String → List String) :
    ∀ (us : List String) (h : List String),
      (conversationLoop agent h us).2 = true ↔ ∃ u ∈ us, isQuitCmd u = true := by
  intro us
  induction us with
  | nil =>
    intro h
    simp [conversationLoop]
  | cons u rest ih =>
    intro h
    simp only [conversationLoop]
    split
    · rename_i hq
      exact iff_of_true rfl ⟨u, by simp, hq⟩
    · rename_i hq
      rw [Bool.not_eq_true] at hq
      constructor
      · intro h2
        obtain ⟨x, hx, hxq⟩ := (ih (agent u h)).mp h2
        exact ⟨x, by simp [hx], hxq⟩
      · rintro ⟨x, hx, hxq⟩
        rcases List.mem_cons.mp hx with rfl | hx2
        · rw [hq] at hxq
          cases hxq
        · exact (ih (agent u h)).mpr ⟨x, hx2, hxq⟩

/-- On a quit-free input prefix the conversation loop performs one agent
call per input and is still running afterwards: no iteration cap exists. -/
lemma conversationLoop_no_quit (agent : String → List String → List String) :
    ∀ (us : List String) (h : List String),
      (∀ u ∈ us, isQuitCmd u = false) →
      conversationLoop agent h us = (us.length, false) := by
  intro us
  induction us with
  | nil =>
    intro h _
    simp [conversationLoop]
  | cons u rest ih =>
    intro h hq
    simp only [conversationLoop]
    rw [hq u (by simp)]
    simp only [Bool.false_eq_true, if_false]
    have h2 := ih (agent u h) (fun x hx => hq x (List.mem_cons_of_mem u hx))
    show ((conversationLoop agent (agent u h) rest).1 + 1,
      (conversationLoop agent (agent u h) rest).2) = ((u :: rest).length, false)
    rw [h2]
    rfl

/-- The debate loop has no early exit: it executes one round per index. -/
lemma debateLoop_rounds
    (optimist pessimist pragmatist : String → List String → String × List String)
    (topic : String) :
    ∀ (idxs : List ℕ) (st : DebateState),
      (debateLoop optimist pessimist pragmatist topic st idxs).2 = idxs.length := by
  intro idxs
  induction idxs with
  | nil =>
    intro st
    simp [debateLoop]
  | cons i rest ih =>
    intro st
    show (debateLoop optimist pessimist pragmatist topic
      (debateRound optimist pessimist pragmatist topic st) rest).2 + 1 =
      rest.length + 1
    rw [ih]

/-- C4 (amended): the repository's agent-invoking loops fall into three
classes, and only some of them are capped. The reflection, validation and
negotiation loops are bounded by their hard caps (2 iterations,
`max_attempts` attempts, 4 rounds), exit early when their success
condition fires (critique score ≥ 8, judge approval, deal reached), and
complete all capped iterations exactly when it never fires. The demo
loops — the 4 RAG questions, the 2 judged products, the debate's `rounds`
rounds — run exactly their fixed number of iterations with no early exit.
The interactive conversation loop of `src/07_conversation_history.py` has
no iteration cap at all: it performs one agent call per non-quit input,
terminates exactly when the user enters a quit command, and for every `n`
the all-`"hello"` input stream keeps it running past `n` agent calls. -/
theorem agent_loops_spec :
    ∀ (critic : String → Critique) (writer : String → String)
      (topic expl0 : String)
      (contentAgent : String → String) (judgeAgent : String → Judgment)
      (product : String) (max_attempts : ℕ)
      (negotiator : String → Offer) (human : Offer → Offer)
      (seller : String → Offer) (opening : Offer)
      (ragAgent : String → String)
      (optimist pessimist pragmatist : String → List String → String × List String)
      (debateTopic : String) (rounds : ℕ)
      (convAgent : String → List String → List String)
      (history inputs : List String) (n : ℕ),
      ((reflectionRun critic writer topic expl0).2.1 ≤
          maxIterationsReflection - 1 ∧
        ((reflectionRun critic writer topic expl0).2.2 = false →
          (reflectionRun critic writer topic expl0).2.1 =
            maxIterationsReflection - 1)) ∧
      ((generate_with_validation contentAgent judgeAgent product
          max_attempts).2.length ≤ max_attempts ∧
        ((∀ j ∈ (generate_with_validation contentAgent judgeAgent product
            max_attempts).2, j.approved = false) →
          (generate_with_validation contentAgent judgeAgent product
            max_attempts).2.length = max_attempts)) ∧
      ((negotiationRun negotiator human seller opening).1 ≤ maxRounds - 1 ∧
        ((negotiationRun negotiator human seller opening).2 = false →
          (negotiationRun negotiator human seller opening).1 = maxRounds - 1)) ∧
      (ragDemoRun ragAgent).length = 4 ∧
      (judgeDemoRun contentAgent judgeAgent).length = 2 ∧
      (run_debate_rounds optimist pessimist pragmatist debateTopic rounds).2 =
        rounds ∧
      ((conversationLoop convAgent history inputs).2 = true ↔
        ∃ u ∈ inputs, isQuitCmd u = true) ∧
      ((∀ u ∈ inputs, isQuitCmd u = false) →
        conversationLoop convAgent history inputs = (inputs.length, false)) ∧
      conversationLoop convAgent history (List.replicate n "hello") =
        (n, false) := by
  intro critic writer topic expl0 contentAgent judgeAgent product max_attempts
    negotiator human seller opening ragAgent optimist pessimist pragmatist
    debateTopic rounds convAgent history inputs n
  refine ⟨?_, ?_, ?_, ?_, ?_, ?_, ?_, ?_, ?_⟩
  · have h := reflectionLoop_bound critic writer topic
      (pyRange 2 (maxIterationsReflection + 1)) expl0
    rwa [pyRange_length] at h
  · have h := genLoop_bound contentAgent judgeAgent product
      (pyRange 1 (max_attempts + 1)) none "" []
    rwa [pyRange_length, List.length_nil, Nat.zero_add,
      Nat.add_sub_cancel] at h
  · have h := negotiationLoop_bound negotiator human seller
      (pyRange 2 (maxRounds + 1)) opening
    rwa [pyRange_length] at h
  · simp [ragDemoRun, ragDemoQuestions]
  · simp [judgeDemoRun, judgeDemoProducts]
  · unfold run_debate_rounds
    rw [debateLoop_rounds, pyRange_length]
    omega
  · exact conversationLoop_quit_iff convAgent inputs history
  · exact conversationLoop_no_quit convAgent inputs history
  · have hrep : ∀ u ∈ List.replicate n "hello", isQuitCmd u = false := by
      intro u hu
      rw [List.eq_of_mem_replicate hu]
      decide
    rw [conversationLoop_no_quit convAgent (List.replicate n "hello") history
      hrep, List.length_replicate]

/-- C4 witness: with a judge that never approves, the validation loop runs
all 3 attempts; and on the quit-free input stream `["hello", "world"]` the
conversation loop makes 2 agent calls and is still running. -/
theorem agent_loops_spec_witness :
    (generate_with_validation (fun _ => "d")
      (fun _ => ⟨false, 2, [], ["too short"], "expand"⟩)
      "Organic Green Tea Blend with Jasmine" 3).2.length = 3 ∧
    conversationLoop (fun _ h => h) [] ["hello", "world"] = (2, false) :=
  ⟨(agent_loops_spec (fun _ => ⟨1, [], [], ""⟩) (fun p => p) "t" "e"
      (fun _ => "d") (fun _ => ⟨false, 2, [], ["too short"], "expand"⟩)
      "Organic Green Tea Blend with Jasmine" 3
      (fun _ => ⟨1, 1, "", ""⟩) (fun o => o) (fun _ => ⟨1, 1, "", ""⟩)
      ⟨200, 50, "", ""⟩ (fun s => s)
      (fun _ _ => ("", [])) (fun _ _ => ("", [])) (fun _ _ => ("", []))
      "t" 2 (fun _ h => h) [] ["hello", "world"] 0).2.1.2 (by decide),
   (agent_loops_spec (fun _ => ⟨1, [], [], ""⟩) (fun p => p) "t" "e"
      (fun _ => "d") (fun _ => ⟨false, 2, [], ["too short"], "expand"⟩)
      "Organic Green Tea Blend with Jasmine" 3
      (fun _ => ⟨1, 1, "", ""⟩) (fun o => o) (fun _ => ⟨1, 1, "", ""⟩)
      ⟨200, 50, "", ""⟩ (fun s => s)
      (fun _ _ => ("", [])) (fun _ _ => ("", [])) (fun _ _ => ("", []))
      "t" 2 (fun _ h => h) [] ["hello", "world"] 0).2.2.2.2.2.2.2.1
      (by decide)⟩

/-- C4 counterexample: neither "runs a fixed number of iterations" nor
"the hard cap is the only termination condition" holds. A critic that
immediately scores 9 stops the reflection loop after 1 of its 2 capped
iterations; an immediately approving judge makes
`generate_with_validation` return after 1 of 3 attempts; and the uncapped
conversation loop terminates after 1 agent call when the user types
`"exit"`, yet is still running after 5 agent calls on five `"hi"` inputs —
two executions of the same loop with different iteration counts and no cap
involved. -/
theorem agent_loops_counterexample :
    (reflectionRun (fun _ => ⟨9, [], [], ""⟩) (fun p => p)
      "Python decorators" "draft").2 = (1, true) ∧
    (1 : ℕ) ≠ maxIterationsReflection - 1 ∧
    (generate_with_validation (fun _ => "desc")
      (fun _ => ⟨true, 9, [], [], ""⟩)
      "Wireless Bluetooth Headphones with noise cancellation" 3).2.length = 1 ∧
    (1 : ℕ) ≠ 3 ∧
    conversationLoop (fun _ h => h) [] ["hello", "exit"] = (1, true) ∧
    conversationLoop (fun _ h => h) [] ["hi", "hi", "hi", "hi", "hi"] =
      (5, false) := by
  exact ⟨rfl, by decide, rfl, by decide, rfl, rfl⟩

/-- `s.split(sep)` never returns an empty list. -/
lemma pySplitOn_ne_nil (sep : Char) : ∀ l, pySplitOn sep l ≠ [] := by
  intro l
  induction l with
  | nil => simp [pySplitOn]
  | cons c rest ih =>
    simp only [pySplitOn]
    split
    · simp
    · split <;> simp

/-- The first part of `s.split(sep)` is the run before the first `sep`. -/
lemma pySplitOn_head (sep : Char) :
    ∀ l, (pySplitOn sep l).getD 0 [] = l.takeWhile (fun c => c != sep) := by
  intro l
  induction l with
  | nil => simp [pySplitOn]
  | cons c rest ih =>
    simp only [pySplitOn]
    split
    · rename_i hc
      subst hc
      simp [List.takeWhile_cons]
    · rename_i hc
      split
      · rename_i heq
        exact absurd heq (pySplitOn_ne_nil sep rest)
      · rename_i p ps heq
        rw [heq] at ih
        simp only [List.getD_cons_zero] at ih
        simp [List.takeWhile_cons, bne_iff_ne, hc, ih]

/-- When `sep` occurs in the string, the second part of `s.split(sep)` is
the segment between the first `sep` and the next one (or the end). -/
lemma pySplitOn_second (sep : Char) :
    ∀ l, sep ∈ l →
      (pySplitOn sep l).getD 1 [] =
        ((l.dropWhile (fun c => c != sep)).drop 1).takeWhile (fun c => c != sep) := by
  intro l
  induction l with
  | nil => simp
  | cons c rest ih =>
    intro hmem
    simp only [pySplitOn]
    split
    · rename_i hc
      subst hc
      simp only [List.getD_cons_succ]
      rw [pySplitOn_head]
      simp [List.dropWhile_cons]
    · rename_i hc
      have hrest : sep ∈ rest := by
        rcases List.mem_cons.mp hmem with h | h
        · exact absurd h.symm hc
        · exact h
      split
      · rename_i heq
        exact absurd heq (pySplitOn_ne_nil sep rest)
      · rename_i p ps heq
        have := ih hrest
        rw [heq] at this
        simp only [List.getD_cons_succ] at this ⊢
        rw [this]
        simp [List.dropWhile_cons, bne_iff_ne, hc]

/-- When `sep` occurs in the string, `s.split(sep)` has at least two
parts (so the indexing `v.split("@")[1]` is safe). -/
lemma pySplitOn_length_two (sep : Char) :
    ∀ l, sep ∈ l → 2 ≤ (pySplitOn sep l).length := by
  intro l
  induction l with
  | nil => simp
  | cons c rest ih =>
    intro hmem
    simp only [pySplitOn]
    split
    · rename_i hc
      have h1 := pySplitOn_ne_nil sep rest
      have : 1 ≤ (pySplitOn sep rest).length := by
        cases h : pySplitOn sep rest with
        | nil => exact absurd h h1
        | cons a b => simp
      simpa using Nat.succ_le_succ this
    · rename_i hc
      have hrest : sep ∈ rest := by
        rcases List.mem_cons.mp hmem with h | h
        · exact absurd h.symm hc
        · exact h
      have h2 := ih hrest
      split
      · rename_i heq
        exact absurd heq (pySplitOn_ne_nil sep rest)
      · rename_i p ps heq
        rw [heq] at h2
        simpa using h2

/-- Python's `needle in hay` is the infix relation. -/
lemma pyStrContains_infix_iff (n l : List Char) :
    pyStrContains n l = true ↔ n <:+: l := by
  simp only [pyStrContains, List.any_eq_true]
  constructor
  · rintro ⟨t, ht, hp⟩
    exact List.infix_iff_prefix_suffix.mpr
      ⟨t, List.isPrefixOf_iff_prefix.mp hp, (List.mem_tails t l).mp ht⟩
  · intro h
    obtain ⟨t, hp, hs⟩ := List.infix_iff_prefix_suffix.mp h
    exact ⟨t, (List.mem_tails t l).mpr hs, List.isPrefixOf_iff_prefix.mpr hp⟩

/-- Python's `c in s` for a single character is list membership. -/
lemma pyStrContains_singleton (c : Char) (l : List Char) :
    pyStrContains [c] l = true ↔ c ∈ l := by
  rw [pyStrContains_infix_iff]
  constructor
  · intro h
    exact List.singleton_sublist.mp h.sublist
  · intro h
    obtain ⟨s, t, rfl⟩ := List.append_of_mem h
    exact ⟨s, t, by simp⟩

/-- C9: `validate_email` is total with only the `ValueError` outcome
(`.ok` or the single `.error`), the indexing `v.split("@")[1]` is only
reached when `'@'` occurs in `v` and then the split has at least two
parts, and `v` is accepted iff `'@'` occurs in `v` and `'.'` occurs in the
segment between the first `'@'` and the next `'@'` or the end. -/
theorem validate_email_spec :
    ∀ v : String,
      (validate_email v = .ok v ∨
        validate_email v = .error "Invalid email format") ∧
      ('@' ∈ v.data → 2 ≤ (pySplitOn '@' v.data).length) ∧
      (validate_email v = .ok v ↔ ('@' ∈ v.data ∧ '.' ∈ emailSeg v.data)) := by
  intro v
  refine ⟨?_, pySplitOn_length_two '@' v.data, ?_⟩
  · unfold validate_email
    split
    · exact Or.inr rfl
    · exact Or.inl rfl
  · cases hat : pyStrContains ['@'] v.data with
    | false =>
      have hm : '@' ∉ v.data := by
        intro hmem
        rw [← pyStrContains_singleton '@' v.data] at hmem
        rw [hat] at hmem
        cases hmem
      unfold validate_email
      rw [hat]
      simp [hm]
    | true =>
      have hm : '@' ∈ v.data := (pyStrContains_singleton '@' v.data).mp hat
      have hseg : (pySplitOn '@' v.data).getD 1 [] = emailSeg v.data :=
        pySplitOn_second '@' v.data hm
      cases hdot : pyStrContains ['.'] (emailSeg v.data) with
      | false =>
        have hd : '.' ∉ emailSeg v.data := by
          intro hmem
          rw [← pyStrContains_singleton '.' (emailSeg v.data)] at hmem
          rw [hdot] at hmem
          cases hmem
        unfold validate_email
        rw [hat, hseg, hdot]
        simp [hd]
      | true =>
        have hd : '.' ∈ emailSeg v.data :=
          (pyStrContains_singleton '.' (emailSeg v.data)).mp hdot
        unfold validate_email
        rw [hat, hseg, hdot]
        simp [hm, hd]

/-- C9 witness: `"john.smith@example.com"` is accepted, and its split has
at least two parts. -/
theorem validate_email_spec_witness :
    validate_email "john.smith@example.com" = .ok "john.smith@example.com" ∧
    2 ≤ (pySplitOn '@' ("john.smith@example.com").data).length :=
  ⟨(validate_email_spec "john.smith@example.com").2.2.mpr
      ⟨by decide, by decide⟩,
   (validate_email_spec "john.smith@example.com").2.1 (by decide)⟩

/-- Lists of length four are four-element lists. -/
lemma length_eq_four {α : Type} {l : List α} :
    l.length = 4 ↔ ∃ a b c d, l = [a, b, c, d] := by
  cases l with
  | nil => simp
  | cons x t =>
    constructor
    · intro h
      obtain ⟨a, b, c, rfl⟩ := List.length_eq_three.mp
        (by simpa using Nat.succ_injective (by simpa using h))
      exact ⟨x, a, b, c, rfl⟩
    · rintro ⟨a, b, c, d, heq⟩
      rw [heq]
      rfl

/-- The regex matcher `matches334` recognises exactly the spec's 3-3-4
pattern. -/
lemma matches334_iff (l : List Char) : matches334 l = true ↔ SpecPhone l := by
  constructor
  · intro hm
    unfold matches334 at hm
    split at hm
    · rename_i a b c p1 d e f p2 g h i j
      simp only [Bool.and_eq_true, beq_iff_eq] at hm
      obtain ⟨⟨⟨⟨⟨⟨⟨⟨⟨⟨⟨ha, hb⟩, hc⟩, hp1⟩, hd⟩, he⟩, hf⟩, hp2⟩, hg⟩, hh⟩,
        hi⟩, hj⟩ := hm
      subst hp1
      subst hp2
      refine ⟨[a, b, c], [d, e, f], [g, h, i, j], rfl, rfl, rfl, ?_, rfl⟩
      intro x hx
      simp only [List.append_assoc, List.mem_append, List.mem_cons,
        List.not_mem_nil, or_false] at hx
      rcases hx with (rfl | rfl | rfl) | (rfl | rfl | rfl) | (rfl | rfl | rfl | rfl) <;>
        assumption
    · cases hm
  · rintro ⟨d1, d2, d3, hl1, hl2, hl3, hdig, rfl⟩
    obtain ⟨a, b, c, rfl⟩ := List.length_eq_three.mp hl1
    obtain ⟨d, e, f, rfl⟩ := List.length_eq_three.mp hl2
    obtain ⟨g, h, i, j, rfl⟩ := length_eq_four.mp hl3
    show matches334 [a, b, c, '-', d, e, f, '-', g, h, i, j] = true
    simp only [matches334, Bool.and_eq_true, beq_iff_eq]
    refine ⟨⟨⟨⟨⟨⟨⟨⟨⟨⟨⟨?_, ?_⟩, ?_⟩, trivial⟩, ?_⟩, ?_⟩, ?_⟩, trivial⟩, ?_⟩, ?_⟩,
      ?_⟩, ?_⟩ <;> [exact hdig a (by simp); exact hdig b (by simp);
        exact hdig c (by simp); exact hdig d (by simp); exact hdig e (by simp);
        exact hdig f (by simp); exact hdig g (by simp); exact hdig h (by simp);
        exact hdig i (by simp); exact hdig j (by simp)]

/-- The spec's 3-3-4 pattern forces exactly 12 characters. -/
lemma SpecPhone_length {l : List Char} (h : SpecPhone l) : l.length = 12 := by
  obtain ⟨d1, d2, d3, h1, h2, h3, -, rfl⟩ := h
  simp [h1, h2, h3]

/-- A list whose `getLast?` is `some a` is its `dropLast` plus `[a]`. -/
lemma eq_dropLast_append_of_getLast {l : List Char} {a : Char}
    (h : l.getLast? = some a) : l = l.dropLast ++ [a] := by
  cases l with
  | nil => cases h
  | cons x t =>
    have hne : x :: t ≠ [] := by simp
    rw [List.getLast?_eq_getLast _ hne] at h
    have ha := Option.some.inj h
    rw [← ha]
    exact (List.dropLast_append_getLast hne).symm

/-- Python's `$` anchor: a full match of `^p$` is a match of `p` against
the whole string or against the string less a single trailing newline. -/
lemma pyFullMatchDollar_iff (p : List Char → Bool) (l : List Char) :
    pyFullMatchDollar p l = true ↔
      (p l = true ∨ ∃ l', p l' = true ∧ l = l' ++ ['\n']) := by
  unfold pyFullMatchDollar
  simp only [Bool.or_eq_true, Bool.and_eq_true, beq_iff_eq]
  refine or_congr Iff.rfl ⟨?_, ?_⟩
  · rintro ⟨hlast, hp⟩
    exact ⟨l.dropLast, hp, eq_dropLast_append_of_getLast hlast⟩
  · rintro ⟨l', hp, rfl⟩
    refine ⟨List.getLast?_concat l', ?_⟩
    rw [List.dropLast_concat]
    exact hp

/-- What the phone regex `^\d{3}-\d{3}-\d{4}$` accepts under Python's `$`
semantics: the spec's 3-3-4 pattern, or that pattern followed by one
trailing newline. -/
lemma phonePattern_iff (l : List Char) :
    pyFullMatchDollar matches334 l = true ↔
      (SpecPhone l ∨ ∃ l', SpecPhone l' ∧ l = l' ++ ['\n']) := by
  rw [pyFullMatchDollar_iff]
  refine or_congr (matches334_iff l) ⟨?_, ?_⟩
  · rintro ⟨l', hp, he⟩
    exact ⟨l', (matches334_iff l').mp hp, he⟩
  · rintro ⟨l', hs, he⟩
    exact ⟨l', (matches334_iff l').mpr hs, he⟩

/-- An accepted phone is returned unchanged and matched the regex. -/
lemma validate_phone_ok {v w : String} (h : validate_phone v = .ok w) :
    w = v ∧ pyFullMatchDollar matches334 v.data = true := by
  unfold validate_phone at h
  split at h
  · rename_i hc
    exact ⟨(Except.ok.inj h).symm, hc⟩
  · cases h

/-- An accepted email is returned unchanged. -/
lemma validate_email_ok {v w : String} (h : validate_email v = .ok w) :
    w = v := by
  unfold validate_email at h
  split at h
  · cases h
  · exact (Except.ok.inj h).symm

/-- C1 (amended): `validate_phone` accepts `s` (returning it unchanged)
iff `s` is three decimal digits, a hyphen, three decimal digits, a hyphen,
and four decimal digits — or that 3-3-4 pattern followed by a single
trailing newline, which Python's `$` anchor also accepts — and raises
`ValueError` for every other string. -/
theorem validate_phone_spec :
    ∀ v : String,
      (validate_phone v = .ok v ↔
        (SpecPhone v.data ∨ ∃ l, SpecPhone l ∧ v.data = l ++ ['\n'])) ∧
      (validate_phone v = .error "Phone must be in format XXX-XXX-XXXX" ↔
        ¬(SpecPhone v.data ∨ ∃ l, SpecPhone l ∧ v.data = l ++ ['\n'])) := by
  intro v
  have key := phonePattern_iff v.data
  unfold validate_phone
  cases hb : pyFullMatchDollar matches334 v.data with
  | true =>
    have hr := key.mp hb
    exact ⟨iff_of_true (by simp) hr,
      iff_of_false (by simp) (not_not_intro hr)⟩
  | false =>
    have hr : ¬(SpecPhone v.data ∨ ∃ l, SpecPhone l ∧ v.data = l ++ ['\n']) := by
      intro hsp
      have := key.mpr hsp
      rw [hb] at this
      cases this
    exact ⟨iff_of_false (by simp) hr, iff_of_true (by simp) hr⟩

/-- C1 witness: `"555-123-4567"` is accepted unchanged. -/
theorem validate_phone_spec_witness :
    validate_phone "555-123-4567" = .ok "555-123-4567" :=
  (validate_phone_spec "555-123-4567").1.mpr
    (Or.inl ⟨['5', '5', '5'], ['1', '2', '3'], ['4', '5', '6', '7'],
      rfl, rfl, rfl, by decide, by decide⟩)

/-- C1 counterexample: `"555-123-4567\n"` is not of the 3-3-4 form (it has
13 characters), yet `validate_phone` accepts it, because Python's `$`
matches just before a trailing newline. -/
theorem validate_phone_counterexample :
    validate_phone "555-123-4567\n" = .ok "555-123-4567\n" ∧
    ¬ SpecPhone (String.data "555-123-4567\n") := by
  refine ⟨rfl, fun h => absurd (SpecPhone_length h) (by decide)⟩

/-- C6 (amended): a successfully constructed `ContactInfo` has an integer
age with `0 ≤ age ≤ 120` and a phone matching the 3-3-4 digit pattern or
that pattern followed by a single trailing newline (Python's `$` also
matches before a final newline); construction fails whenever the age is
out of range or the phone is outside this extended pattern. A `Critique`
and a `Judgment` are constructible exactly when `1 ≤ score ≤ 10`. -/
theorem structured_models_spec :
    ∀ (name email phone : String) (age : ℤ) (ci : ContactInfo)
      (score : ℤ) (st wk rr : List String) (sg : String)
      (ap : Bool) (cm : List (String × Bool)),
      (mkContactInfo name email phone age = .ok ci →
        0 ≤ ci.age ∧ ci.age ≤ 120 ∧
        (SpecPhone ci.phone.data ∨
          ∃ l, SpecPhone l ∧ ci.phone.data = l ++ ['\n'])) ∧
      (¬(0 ≤ age ∧ age ≤ 120) → mkContactInfo name email phone age ≠ .ok ci) ∧
      (¬(SpecPhone phone.data ∨ ∃ l, SpecPhone l ∧ phone.data = l ++ ['\n']) →
        mkContactInfo name email phone age ≠ .ok ci) ∧
      ((∃ c, mkCritique score st wk sg = .ok c) ↔ 1 ≤ score ∧ score ≤ 10) ∧
      ((∃ jm, mkJudgment ap score cm rr sg = .ok jm) ↔
        1 ≤ score ∧ score ≤ 10) := by
  intro name email phone age ci score st wk rr sg ap cm
  refine ⟨?_, ?_, ?_, ?_, ?_⟩
  · intro h
    unfold mkContactInfo at h
    split at h
    · cases h
    · rename_i em hem
      split at h
      · cases h
      · rename_i ph hph
        split at h
        · rename_i hage
          obtain rfl := (Except.ok.inj h)
          obtain ⟨hw, hpat⟩ := validate_phone_ok hph
          subst hw
          exact ⟨hage.1, hage.2, (phonePattern_iff ph.data).mp hpat⟩
        · cases h
  · intro hage h
    unfold mkContactInfo at h
    split at h
    · cases h
    · split at h
      · cases h
      · split at h
        · rename_i hc
          exact hage hc
        · cases h
  · intro hpat h
    unfold mkContactInfo at h
    split at h
    · cases h
    · split at h
      · cases h
      · rename_i ph hph
        obtain ⟨-, hok⟩ := validate_phone_ok hph
        exact hpat ((phonePattern_iff phone.data).mp hok)
  · constructor
    · rintro ⟨c, hc⟩
      unfold mkCritique at hc
      split at hc
      · assumption
      · cases hc
    · intro hb
      exact ⟨⟨score, st, wk, sg⟩, by unfold mkCritique; rw [if_pos hb]⟩
  · constructor
    · rintro ⟨jm, hj⟩
      unfold mkJudgment at hj
      split at hj
      · assumption
      · cases hj
    · intro hb
      exact ⟨⟨ap, score, cm, rr, sg⟩, by unfold mkJudgment; rw [if_pos hb]⟩

/-- C6 witness: a score of 5 yields a `Critique` and a `Judgment`, and an
age of 200 makes `ContactInfo` construction fail. -/
theorem structured_models_spec_witness :
    (∃ c, mkCritique 5 [] [] "" = .ok c) ∧
    (∃ jm, mkJudgment false 5 [] [] "" = .ok jm) ∧
    mkContactInfo "Jane" "a@b.c" "555-123-4567" 200 ≠
      .ok ⟨"Jane", "a@b.c", "555-123-4567", 200⟩ :=
  ⟨(structured_models_spec "Jane" "a@b.c" "555-123-4567" 200
      ⟨"Jane", "a@b.c", "555-123-4567", 200⟩ 5 [] [] [] "" false []).2.2.2.1.mpr
      (by decide),
   (structured_models_spec "Jane" "a@b.c" "555-123-4567" 200
      ⟨"Jane", "a@b.c", "555-123-4567", 200⟩ 5 [] [] [] "" false []).2.2.2.2.mpr
      (by decide),
   (structured_models_spec "Jane" "a@b.c" "555-123-4567" 200
      ⟨"Jane", "a@b.c", "555-123-4567", 200⟩ 5 [] [] [] "" false []).2.1
      (by decide)⟩

/-- C6 counterexample: the phone `"555-123-4567\n"` is outside the 3-3-4
pattern (13 characters), yet the `ContactInfo` is successfully
constructed with it. -/
theorem structured_models_counterexample :
    mkContactInfo "John Smith" "john.smith@example.com" "555-123-4567\n" 35 =
      .ok ⟨"John Smith", "john.smith@example.com", "555-123-4567\n", 35⟩ ∧
    ¬ SpecPhone (String.data "555-123-4567\n") :=
  ⟨rfl, fun h => absurd (SpecPhone_length h) (by decide)⟩

/-- A Python slice `l[:n]` is a sublist of `l`. -/
lemma pySliceTo_sublist (n : ℤ) {α : Type} (l : List α) :
    (pySliceTo n l).Sublist l := by
  unfold pySliceTo
  split <;> exact List.take_sublist _ _

/-- For a non-negative bound, `l[:n]` has at most `n` elements. -/
lemma pySliceTo_length_le {n : ℤ} (h : 0 ≤ n) {α : Type} (l : List α) :
    ((pySliceTo n l).length : ℤ) ≤ n := by
  unfold pySliceTo
  rw [if_pos h]
  have h1 : (l.take n.toNat).length ≤ n.toNat := by
    simp [List.length_take]
  calc ((l.take n.toNat).length : ℤ) ≤ (n.toNat : ℤ) := by exact_mod_cast h1
    _ = n := Int.toNat_of_nonneg h

/-- C3 (amended): `search_knowledge_base` returns only documents with a
strictly positive keyword-overlap score (3 per query term in the title, 2
per term in the category, 1 per term in the content), in non-increasing
score order (ties unspecified); and for every non-negative `max_results`
the result has at most `max_results` entries. -/
theorem search_knowledge_base_spec :
    ∀ (query : String) (max_results : ℤ),
      (∀ d ∈ search_knowledge_base query max_results,
        0 < docScore (pySplitWs (pyLower query).data) d) ∧
      (search_knowledge_base query max_results).Pairwise
        (fun d1 d2 => docScore (pySplitWs (pyLower query).data) d2 ≤
          docScore (pySplitWs (pyLower query).data) d1) ∧
      (0 ≤ max_results →
        ((search_knowledge_base query max_results).length : ℤ) ≤ max_results) := by
  intro query max_results
  set terms := pySplitWs (pyLower query).data with hterms
  set results := (KNOWLEDGE_BASE.map (fun d => (docScore terms d, d))).filter
    (fun p => 0 < p.1) with hres
  set sorted := results.mergeSort (fun a b => b.1 ≤ a.1) with hsort
  have hsearch : search_knowledge_base query max_results =
      (pySliceTo max_results sorted).map (fun p => p.2) := rfl
  have hmem_pairs : ∀ p ∈ pySliceTo max_results sorted,
      p.1 = docScore terms p.2 ∧ 0 < p.1 := by
    intro p hp
    have hp1 : p ∈ sorted := (pySliceTo_sublist max_results sorted).subset hp
    have hp2 : p ∈ results :=
      ((List.mergeSort_perm results (fun a b => b.1 ≤ a.1)).mem_iff).mp hp1
    have hp3 := List.mem_filter.mp hp2
    obtain ⟨d, -, rfl⟩ := List.mem_map.mp hp3.1
    exact ⟨rfl, by simpa using hp3.2⟩
  refine ⟨?_, ?_, ?_⟩
  · intro d hd
    rw [hsearch] at hd
    obtain ⟨p, hp, rfl⟩ := List.mem_map.mp hd
    obtain ⟨hpe, hppos⟩ := hmem_pairs p hp
    exact hpe ▸ hppos
  · rw [hsearch, List.pairwise_map]
    have hsorted : sorted.Pairwise (fun a b : ℕ × Doc => b.1 ≤ a.1) := by
      have h := @List.sorted_mergeSort (ℕ × Doc)
        (fun a b => decide (b.1 ≤ a.1))
        (fun a b c h1 h2 =>
          decide_eq_true (le_trans (of_decide_eq_true h2) (of_decide_eq_true h1)))
        (fun a b => by simpa using Nat.le_total b.1 a.1)
        results
      exact h.imp (fun hab => of_decide_eq_true hab)
    have hsliced := List.Pairwise.sublist (pySliceTo_sublist max_results sorted)
      hsorted
    refine List.Pairwise.imp_of_mem ?_ hsliced
    intro a b ha hb hab
    rw [← (hmem_pairs a ha).1, ← (hmem_pairs b hb).1]
    exact hab
  · intro hm
    rw [hsearch, List.length_map]
    exact pySliceTo_length_le hm sorted

/-- C3 witness: for the query `"tools"` with `max_results = 3`, the bound
`0 ≤ 3` holds and the search returns at most 3 documents. -/
theorem search_knowledge_base_spec_witness :
    (0 : ℤ) ≤ 3 ∧ ((search_knowledge_base "tools" 3).length : ℤ) ≤ 3 :=
  ⟨by decide, (search_knowledge_base_spec "tools" 3).2.2 (by decide)⟩

set_option maxRecDepth 100000 in
unseal List.merge List.mergeSort in
/-- C3 counterexample: the claim quantifies over every `max_results`
value, but Python's slicing makes a negative `max_results` drop entries
from the end instead of bounding the result: `"tools"` matches 3
documents, and `max_results = -1` returns 2 of them, with `2 ≰ -1`. -/
theorem search_knowledge_base_counterexample :
    ((search_knowledge_base "tools" (-1)).length : ℤ) = 2 ∧
    ¬((2 : ℤ) ≤ -1) := by
  refine ⟨?_, by decide⟩
  have h : (search_knowledge_base "tools" (-1)).length = 2 := by decide
  rw [h]
  rfl

end AgentPatterns
